import Mathlib

/-!
Shallow embedding of the neural-network-playground core:
the dataset generator family (`src/unnamed/part_000`, a TypeScript module)
and the heatmap renderer (`src/src/heatmap.ts`).

Modelling conventions:
* JavaScript numbers are modelled by `ℚ`.  Transcendental operations that
  JavaScript computes on floats (`Math.sin`, `Math.sqrt`, `Math.log`,
  `Math.atan`, `Math.PI`) are abstract parameters collected in `MathOps`,
  so every definition stays executable and the theorems quantify over the
  float behaviour.
* `Math.random()` is modelled by an abstract stream `g : ℕ → ℚ` together
  with a counter that advances by one per call, mirroring the single
  shared random source of the module.
* A JavaScript value that can be `NaN` is modelled by `Option ℚ`
  (`none` = NaN); an out-of-bounds array read yields `undefined`, and
  `undefined` entering arithmetic immediately becomes NaN, so both are
  absorbed into `none`.
* Exceptions are modelled by `Except JsErr`.  A deliberate
  `throw Error(msg)` of the source is one of the named constructors
  below; `JsErr.typeError` is the implicit TypeError raised by property
  access on `undefined` or by calling a non-function.
-/

/-- Errors observable from the embedded code.  The four named constructors
are the four explicit `throw Error(...)` sites of the two source files;
`typeError` is the implicit JavaScript TypeError (property access on an
undefined value, or invoking an undefined value as a function).  The
source contains no other throw site; in particular it defines no
lifecycle-related error. -/
inductive JsErr where
  /-- Implicit TypeError from dereferencing or calling `undefined`. -/
  | typeError
  /-- heatmap.ts updatePoints/updateTestPoints: Error("Can not add points since noSvg=true")
      (source text uses a contraction of cannot). -/
  | noSvgError
  /-- heatmap.ts updateBackground: Error("The provided data matrix must be of size numSamples X numSamples"). -/
  | sizeError
  /-- heatmap.ts reduceMatrix: Error("The provided matrix must be a square matrix"). -/
  | notSquareError
  /-- heatmap.ts reduceMatrix: Error("The width/height of the matrix must be divisible by the reduction factor"). -/
  | notDivisibleError
deriving DecidableEq, Repr

/-- A JavaScript numeric value that may be NaN (`none`). -/
abbrev JsNum := Option ℚ

/-- JavaScript `+` on possibly-NaN values: NaN is absorbing.  An operand
that was `undefined` (out-of-bounds read) also produces NaN, so it is
modelled by `none` as well. -/
def jsAdd : JsNum → JsNum → JsNum
  | some a, some b => some (a + b)
  | _, _ => none

/-- JavaScript division of a possibly-NaN value by a constant.  The
constant is never zero on any reachable path (the reduction factor has
already passed the divisibility check). -/
def jsDivC (x : JsNum) (c : ℚ) : JsNum := x.map (· / c)

/-- Accumulation `avg += ...` over a list of summands, starting from 0,
exactly as the nested k/l loops of `reduceMatrix` do. -/
def jsSum (l : List JsNum) : JsNum := l.foldl jsAdd (some 0)

/-- Cell read `matrix[r][c]` for a matrix whose row index is known to be
in bounds (row reads in `reduceMatrix` always are) but whose column read
may fall off a short (ragged) row, producing `undefined`/NaN (`none`). -/
def matRead (matrix : List (List ℚ)) (r c : ℕ) : JsNum :=
  (matrix.getD r []).get? c

/-- Mean of the `factor × factor` block of `matrix` whose top-left corner
is at row `i * factor`, column `j * factor`: the two inner `k`/`l` loops
of `reduceMatrix` followed by `avg /= (factor * factor)`. -/
def blockAvg (matrix : List (List ℚ)) (factor i j : ℕ) : JsNum :=
  jsDivC
    (jsSum ((List.range factor).flatMap fun k =>
      (List.range factor).map fun l =>
        matRead matrix (i * factor + k) (j * factor + l)))
    ((factor : ℚ) * (factor : ℚ))

/-- heatmap.ts `reduceMatrix(matrix, factor)`.

The source first evaluates `matrix.length !== matrix[0].length`; on the
empty matrix `matrix[0]` is `undefined` and reading its `.length` throws
a TypeError.  The squareness check compares the row count only against
the length of the *first* row.  The divisibility check is
`matrix.length % factor !== 0` (for `factor = 0` the JavaScript remainder
is NaN, which is `!== 0`, and the natural-number remainder `s % 0 = s` is
likewise nonzero for every nonempty matrix, so both models throw).  The
outer loops step `i` and `j` by `factor`, writing
`result[i/factor][j/factor]`, which enumerates exactly the block indices
below `matrix.length / factor`. -/
def reduceMatrix (matrix : List (List ℚ)) (factor : ℕ) :
    Except JsErr (List (List JsNum)) :=
  match matrix.head? with
  | none => .error .typeError
  | some r0 =>
    if matrix.length ≠ r0.length then .error .notSquareError
    else if matrix.length % factor ≠ 0 then .error .notDivisibleError
    else .ok ((List.range (matrix.length / factor)).map fun i =>
      (List.range (matrix.length / factor)).map fun j =>
        blockAvg matrix factor i j)

/-- Cell read of a fully in-bounds rational matrix (used to state block
means of well-formed square matrices). -/
def matCell (matrix : List (List ℚ)) (r c : ℕ) : ℚ :=
  (matrix.getD r []).getD c 0

/-- d3 v3 `uninterpolate` for numbers: normalized position of `x` between
`a` and `b`; d3 returns `0` when `b - a = 0` (and `ℚ` division by zero
agrees, but the branch is kept explicit). -/
def d3Uninterpolate (a b x : ℚ) : ℚ :=
  if b - a = 0 then 0 else (x - a) / (b - a)

/-- d3 v3 bilinear numeric scale: interpolates between `r0` and `r1`
according to the position of `x` between `d0` and `d1` (no clamping;
values outside the domain extrapolate). -/
def d3Bilinear (d0 d1 r0 r1 x : ℚ) : ℚ :=
  r0 + d3Uninterpolate d0 d1 x * (r1 - r0)

/-- d3 v3 bilinear numeric scale with `.clamp(true)`: the normalized
position is clamped to `[0, 1]` before interpolating. -/
def d3BilinearClamp (d0 d1 r0 r1 x : ℚ) : ℚ :=
  r0 + min 1 (max 0 (d3Uninterpolate d0 d1 x)) * (r1 - r0)

/-- d3 v3 polylinear numeric scale over an ascending domain: the segment
index is the bisection position of `x` among the interior domain stops,
clamped to the available segments, and `x` is interpolated (or
extrapolated) on that segment.  `k + 1` is the number of usable stops,
`min domain.length range.length`. -/
def d3Polylinear (domain range : List ℚ) (x : ℚ) : ℚ :=
  let k := min domain.length range.length - 1
  let j := ((List.range (k - 1)).filter fun t => domain.getD (t + 1) 0 ≤ x).length
  d3Bilinear (domain.getD j 0) (domain.getD (j + 1) 0)
    (range.getD j 0) (range.getD (j + 1) 0) x

/-- d3 v3 `d3.scale.linear().domain(domain).range(range)` applied to a
number `x`.  d3 v3 dispatches on `Math.min(domain.length, range.length)`:
only when that minimum exceeds 2 is the piecewise (polylinear) scale
used; otherwise the scale is bilinear between `domain[0..1]` and
`range[0..1]`, silently ignoring any further range stops. -/
def d3ScaleLinearNum (domain range : List ℚ) (x : ℚ) : ℚ :=
  if 2 < min domain.length range.length then d3Polylinear domain range x
  else d3Bilinear (domain.getD 0 0) (domain.getD 1 0)
    (range.getD 0 0) (range.getD 1 0) x

/-- The ten viridis stops of heatmap.ts, as the raw numeric (hex) values
the source puts in the `range` array. -/
def viridisColors : List ℚ :=
  [0x440154, 0x482878, 0x3e4989, 0x31688e, 0x26828e, 0x1f9e89,
   0x35b779, 0x6ece58, 0xb5de2b, 0xfde725]

/-- heatmap.ts `this.colorScale`:
`d3.scale.linear().domain([0, 1]).range(viridisColors)`. -/
def colorScale (v : ℚ) : ℚ := d3ScaleLinearNum [0, 1] viridisColors v

/-- A labeled 2-D example (`Example2D` of the dataset module). -/
structure Example2D where
  x : ℚ
  y : ℚ
  label : ℚ
deriving DecidableEq, Repr

/-- The optional `userSettings` argument of the `HeatMap` constructor:
each recognized key may be present or absent. -/
structure UserSettings where
  showAxes : Option Bool := none
  noSvg : Option Bool := none
deriving DecidableEq, Repr

/-- Effective settings of a `HeatMap` after the constructor merges the
user settings over the defaults `{showAxes: false, noSvg: false}`. -/
structure Settings where
  showAxes : Bool
  noSvg : Bool
deriving DecidableEq, Repr

/-- The svg overlay: the two named marker groups (`g.train`, `g.test`),
each holding the currently rendered markers.  After reconciliation a
group's markers are exactly the filtered points of the last update, so a
marker is represented by the example it renders. -/
structure SvgState where
  train : List Example2D
  test : List Example2D
deriving DecidableEq, Repr

/-- The canvas raster: the flat RGBA byte sequence written by the last
`putImageData` blit. -/
structure CanvasState where
  image : List ℚ
deriving DecidableEq, Repr

/-- Instance state of a `HeatMap` as its methods observe it (`this`).
`canvas` and `svg` are `none` until the deferred `window.onload`
callback of the constructor materializes them.  `color` models
`this.color`, which is declared but never assigned by the constructor
(the constructor assigns `this.colorScale` instead), so it is `none` on
every constructed instance. -/
structure HeatMapState where
  settings : Settings
  numSamples : ℕ
  xDomain : ℚ × ℚ
  yDomain : ℚ × ℚ
  color : Option (ℚ → ℚ)
  canvas : Option CanvasState
  svg : Option SvgState

/-- The settings merge of the constructor: defaults
`{showAxes: false, noSvg: false}` overwritten by every property present
on `userSettings`. -/
def mergeSettings (us : UserSettings) : Settings :=
  { showAxes := us.showAxes.getD false, noSvg := us.noSvg.getD false }

/-- d3 v3 `d3.rgb` applied to the numeric output of the color scale: the
number is coerced to a string, matches neither a color keyword nor a
hash/functional color format, and parses to `rgb(0, 0, 0)`. -/
def d3RgbOfNum (_v : ℚ) : ℚ × ℚ × ℚ := (0, 0, 0)

/-- Pixel loop of `updateBackground`: `y` outer, `x` inner, reading
`data[x][y]` (note the transposed access of the source), optionally
discretizing to `±1` (`value >= 0` collapses to `+1`), colouring through
`this.color`, and appending an RGBA quadruple with alpha 160. -/
def backgroundImage (colorFn : ℚ → ℚ) (data : List (List ℚ))
    (dx dy : ℕ) (discretize : Bool) : List ℚ :=
  (List.range dy).flatMap fun y =>
    (List.range dx).flatMap fun x =>
      let value := (data.getD x []).getD y 0
      let value := if discretize then (if 0 ≤ value then 1 else -1) else value
      let c := d3RgbOfNum (colorFn value)
      [c.1, c.2.1, c.2.2, 160]

/-- heatmap.ts `updateBackground(data, discretize)`.

Order of effects in the source: `data[0].length` (TypeError on an empty
`data`), the size check against `numSamples` (explicit Error), then
`this.canvas.node()` (TypeError while the canvas has not materialized),
then the pixel loop calling `this.color(value)` (TypeError on every
constructed instance, since `this.color` is never assigned — unless the
loop body never runs), and finally the `putImageData` blit. -/
def updateBackground (h : HeatMapState) (data : List (List ℚ))
    (discretize : Bool) : Except JsErr HeatMapState :=
  match data.head? with
  | none => .error .typeError
  | some r0 =>
    let dx := r0.length
    let dy := data.length
    if dx ≠ h.numSamples ∨ dy ≠ h.numSamples then .error .sizeError
    else
      match h.canvas with
      | none => .error .typeError
      | some _ =>
        match h.color with
        | none =>
          if dx * dy = 0 then .ok { h with canvas := some ⟨[]⟩ }
          else .error .typeError
        | some colorFn =>
          .ok { h with
            canvas := some ⟨backgroundImage colorFn data dx dy discretize⟩ }

/-- Domain filter of `updateCircles`: keep the points inside the current
x/y domains (bounds inclusive). -/
def filterInDomain (h : HeatMapState) (points : List Example2D) :
    List Example2D :=
  points.filter fun p =>
    decide (h.xDomain.1 ≤ p.x) && decide (p.x ≤ h.xDomain.2) &&
    decide (h.yDomain.1 ≤ p.y) && decide (p.y ≤ h.yDomain.2)

/-- heatmap.ts `updatePoints(points)`: reject when `noSvg` is set
(explicit Error, thrown before anything is touched); otherwise
`this.svg.select("g.train")` (TypeError while the svg has not
materialized) and enter/update/exit reconciliation, after which the
train group's markers are exactly the filtered points. -/
def updatePoints (h : HeatMapState) (points : List Example2D) :
    Except JsErr HeatMapState :=
  if h.settings.noSvg then .error .noSvgError
  else
    match h.svg with
    | none => .error .typeError
    | some svg =>
      .ok { h with svg := some { svg with train := filterInDomain h points } }

/-- heatmap.ts `updateTestPoints(points)`: as `updatePoints`, on the
test group. -/
def updateTestPoints (h : HeatMapState) (points : List Example2D) :
    Except JsErr HeatMapState :=
  if h.settings.noSvg then .error .noSvgError
  else
    match h.svg with
    | none => .error .typeError
    | some svg =>
      .ok { h with svg := some { svg with test := filterInDomain h points } }

/-- The instance state the constructor has built when it reaches its
final statement (`this.svg.selectAll("rect")...`): settings merged,
scales established, `window.onload` callback registered but not yet run,
so `canvas`, `svg` and `color` are all still undefined. -/
def constructedState (settings : Settings) (numSamples : ℕ)
    (xDomain yDomain : ℚ × ℚ) : HeatMapState :=
  { settings := settings, numSamples := numSamples, xDomain := xDomain,
    yDomain := yDomain, color := none, canvas := none, svg := none }

/-- heatmap.ts `constructor(width, numSamples, xDomain, yDomain,
container, userSettings?)`.

The source evaluates `userSettings.showAxes` (for the `padding` local)
*before* its `userSettings != null` guard, so an omitted settings
argument throws a TypeError immediately.  When settings are supplied,
the constructor merges them, registers the `window.onload` callback
(which would create the canvas and svg later), builds the scales, and
then runs `this.svg.selectAll("rect")...` eagerly — but `this.svg` is
still undefined at that point, so this statement also throws a
TypeError. -/
def heatMapConstructor (_width : ℚ) (numSamples : ℕ)
    (xDomain yDomain : ℚ × ℚ) (userSettings : Option UserSettings) :
    Except JsErr HeatMapState :=
  match userSettings with
  | none => .error .typeError
  | some us =>
    let _st := constructedState (mergeSettings us) numSamples xDomain yDomain
    .error .typeError

/-- Abstract float mathematics used by the generators: the JavaScript
`Math` functions (and `Math.PI`) are opaque real-valued parameters, so
the embedding is executable and theorems hold for every float
behaviour. -/
structure MathOps where
  sin : ℚ → ℚ
  cos : ℚ → ℚ
  sqrt : ℚ → ℚ
  log : ℚ → ℚ
  atan : ℚ → ℚ
  pi : ℚ

/-- One call of `Math.random()`: read the stream at the current counter
and advance the counter. -/
def jsRandom (g : ℕ → ℚ) (k : ℕ) : ℚ × ℕ := (g k, k + 1)

/-- Dataset module `randUniform(a, b)`:
`Math.random() * (b - a) + a`. -/
def randUniform (g : ℕ → ℚ) (a b : ℚ) (k : ℕ) : ℚ × ℕ :=
  let r := jsRandom g k
  (r.1 * (b - a) + a, r.2)

/-- The rejection loop of `normalRandom`: draw `v1, v2` uniform in
`(-1, 1)` (two `Math.random()` calls), form `s = v1² + v2²`, and repeat
while `s > 1` — the do/while runs its body at least once and the *only*
rejection condition in the source is `s > 1`.  Structural recursion on a
fuel bound replaces the unbounded loop (for an adversarial stream the
loop never terminates); the result is the first accepted pair together
with the advanced counter. -/
def normalSearch (g : ℕ → ℚ) : ℕ → ℕ → Option ((ℚ × ℚ) × ℕ)
  | 0, _ => none
  | fuel + 1, k =>
    let r1 := jsRandom g k
    let v1 := 2 * r1.1 - 1
    let r2 := jsRandom g r1.2
    let v2 := 2 * r2.1 - 1
    let s := v1 * v1 + v2 * v2
    if 1 < s then normalSearch g fuel r2.2 else some ((v1, v2), r2.2)

/-- Dataset module `normalRandom(mean, variance)`: run the rejection
loop, then `result = sqrt(-2 * log(s) / s) * v1` and
`mean + sqrt(variance) * result`.  When the accepted pair has `s = 0`
the source divides by zero (`ℚ` division returns the junk value 0 where
JavaScript produces NaN; no theorem depends on the value).  On fuel
exhaustion — impossible for an actual random source — the model returns
`mean` with the counter unchanged. -/
def normalRandom (M : MathOps) (g : ℕ → ℚ) (mean variance : ℚ)
    (fuel k : ℕ) : ℚ × ℕ :=
  match normalSearch g fuel k with
  | none => (mean, k)
  | some ((v1, v2), k') =>
    let s := v1 * v1 + v2 * v2
    let result := M.sqrt (-2 * M.log s / s) * v1
    (mean + M.sqrt variance * result, k')

/-- Number of iterations of the JavaScript loop
`for (let i = 0; i < bound; i++)` for a (possibly fractional) numeric
bound: the count of naturals below `bound`, which is `⌈bound⌉` clamped
to zero. -/
def jsCountLt (bound : ℚ) : ℕ := ⌈bound⌉.toNat

/-- Counting loop that pushes one example per iteration while threading
the random counter: `genForFrom body i c k` runs iterations
`i, i+1, ..., i+c-1` starting at counter `k` and returns the pushed
examples in order together with the final counter. -/
def genForFrom (body : ℕ → ℕ → Example2D × ℕ) : ℕ → ℕ → ℕ → List Example2D × ℕ
  | _, 0, k => ([], k)
  | i, c + 1, k =>
    let p := body i k
    let rest := genForFrom body (i + 1) c p.2
    (p.1 :: rest.1, rest.2)

/-- A JavaScript `for (let i = 0; i < bound; i++)` loop pushing one
example per iteration. -/
def genFor (count : ℕ) (body : ℕ → ℕ → Example2D × ℕ) (k : ℕ) :
    List Example2D × ℕ :=
  genForFrom body 0 count k

/-- Dataset module `classifyHashData(numSamples, noise)`: uniform points
in `[-5,5]²`, labelled by the parity of
`floor((x+noiseX)/3) + floor((y+noiseY)/3)`.  The JavaScript remainder
differs from `Int.emod` on negative operands, but the `=== 0` test
agrees, which is all the source uses. -/
def classifyHashData (g : ℕ → ℚ) (numSamples : ℕ) (noise : ℚ) (k : ℕ) :
    List Example2D × ℕ :=
  genFor (jsCountLt (numSamples : ℚ)) (fun _ k0 =>
    let rx := randUniform g (-5) 5 k0
    let ry := randUniform g (-5) 5 rx.2
    let rnx := randUniform g (-1) 1 ry.2
    let rny := randUniform g (-1) 1 rnx.2
    let label : ℚ :=
      if (⌊(rx.1 + rnx.1 * noise) / 3⌋ + ⌊(ry.1 + rny.1 * noise) / 3⌋) % 2 = 0
      then 1 else -1
    ({ x := rx.1, y := ry.1, label := label }, rny.2)) k

/-- Dataset module `classifyTwoGaussData(numSamples, noise)`: two
Gaussian blobs centred at `(2,2)` (label `+1`) and `(-2,-2)` (label
`-1`), variance scaled from the noise through
`d3.scale.linear().domain([0,.5]).range([0.5,4])`; each blob's loop
bound is `numSamples / 2` with JavaScript real division. -/
def classifyTwoGaussData (M : MathOps) (g : ℕ → ℚ) (fuel numSamples : ℕ)
    (noise : ℚ) (k : ℕ) : List Example2D × ℕ :=
  let variance := d3ScaleLinearNum [0, 1/2] [1/2, 4] noise
  let genGauss := fun (cx cy label : ℚ) (k1 : ℕ) =>
    genFor (jsCountLt ((numSamples : ℚ) / 2)) (fun _ k0 =>
      let rx := normalRandom M g cx variance fuel k0
      let ry := normalRandom M g cy variance fuel rx.2
      ({ x := rx.1, y := ry.1, label := label }, ry.2)) k1
  let p1 := genGauss 2 2 1 k
  let p2 := genGauss (-2) (-2) (-1) p1.2
  (p1.1 ++ p2.1, p2.2)

/-- Dataset module `regressArgMax(numSamples, noise)`: uniform points in
`[-6,6]²`, label `0` when `Math.max(x, y) == x` and `1` otherwise (the
unused local `labelScale` of the source is dropped; the noise argument
is ignored by the source). -/
def regressArgMax (g : ℕ → ℚ) (numSamples : ℕ) (noise : ℚ) (k : ℕ) :
    List Example2D × ℕ :=
  genFor (jsCountLt (numSamples : ℚ)) (fun _ k0 =>
    let rx := randUniform g (-6) 6 k0
    let ry := randUniform g (-6) 6 rx.2
    ({ x := rx.1, y := ry.1,
       label := if max rx.1 ry.1 = rx.1 then 0 else 1 }, ry.2)) k

/-- Dataset module `regressMaximum(numSamples, noise)`: uniform points
in `[-6,6]²`, label `Math.max(x, y)` (unused local `labelScale` dropped;
noise ignored by the source). -/
def regressMaximum (g : ℕ → ℚ) (numSamples : ℕ) (noise : ℚ) (k : ℕ) :
    List Example2D × ℕ :=
  genFor (jsCountLt (numSamples : ℚ)) (fun _ k0 =>
    let rx := randUniform g (-6) 6 k0
    let ry := randUniform g (-6) 6 rx.2
    ({ x := rx.1, y := ry.1, label := max rx.1 ry.1 }, ry.2)) k

/-- Dataset module `regressPlane(numSamples, noise)`: uniform points in
`[-6,6]²`; noise is added to both coordinates before the label rule,
which maps `x + y` through
`d3.scale.linear().domain([-10,10]).range([-1,1])`. -/
def regressPlane (g : ℕ → ℚ) (numSamples : ℕ) (noise : ℚ) (k : ℕ) :
    List Example2D × ℕ :=
  genFor (jsCountLt (numSamples : ℚ)) (fun _ k0 =>
    let rx := randUniform g (-6) 6 k0
    let ry := randUniform g (-6) 6 rx.2
    let rnx := randUniform g (-6) 6 ry.2
    let rny := randUniform g (-6) 6 rnx.2
    let label := d3ScaleLinearNum [-10, 10] [-1, 1]
      ((rx.1 + rnx.1 * noise) + (ry.1 + rny.1 * noise))
    ({ x := rx.1, y := ry.1, label := label }, rny.2)) k

/-- Euclidean distance of the dataset module, with the square root

abstract. -/
def dist (M : MathOps) (a b : ℚ × ℚ) : ℚ :=
  M.sqrt ((a.1 - b.1) * (a.1 - b.1) + (a.2 - b.2) * (a.2 - b.2))

/-- The six fixed Gaussian-bump centres `[cx, cy, sign]` of
`regressGaussian`. -/
def gaussians : List (ℚ × ℚ × ℚ) :=
  [(-4, 5/2, 1), (0, 5/2, -1), (4, 5/2, 1),
   (-4, -5/2, -1), (0, -5/2, 1), (4, -5/2, -1)]

/-- Dataset module `regressGaussian(numSamples, noise)`: the label is
the signed bump value of maximal absolute value over the six centres,
where each bump maps the distance to the centre through the clamped
scale `domain([0,2]).range([1,0])`. -/
def regressGaussian (M : MathOps) (g : ℕ → ℚ) (numSamples : ℕ)
    (noise : ℚ) (k : ℕ) : List Example2D × ℕ :=
  let getLabel := fun (x y : ℚ) =>
    gaussians.foldl (fun label c =>
      let newLabel := c.2.2 * d3BilinearClamp 0 2 1 0 (dist M (x, y) (c.1, c.2.1))
      if |label| < |newLabel| then newLabel else label) 0
  genFor (jsCountLt (numSamples : ℚ)) (fun _ k0 =>
    let rx := randUniform g (-6) 6 k0
    let ry := randUniform g (-6) 6 rx.2
    let rnx := randUniform g (-6) 6 ry.2
    let rny := randUniform g (-6) 6 rnx.2
    ({ x := rx.1, y := ry.1,
       label := getLabel (rx.1 + rnx.1 * noise) (ry.1 + rny.1 * noise) }, rny.2)) k

/-- Dataset module `classifySpiralData(numSamples, noise)`: two
interleaved spirals of `n = numSamples / 2` points each (real division),
the second offset by `π` and labelled `-1`. -/
def classifySpiralData (M : MathOps) (g : ℕ → ℚ) (numSamples : ℕ)
    (noise : ℚ) (k : ℕ) : List Example2D × ℕ :=
  let n : ℚ := (numSamples : ℚ) / 2
  let genSpiral := fun (deltaT label : ℚ) (k1 : ℕ) =>
    genFor (jsCountLt n) (fun i k0 =>
      let r := (i : ℚ) / n * 5
      let t := 7/4 * (i : ℚ) / n * 2 * M.pi + deltaT
      let r1 := randUniform g (-1) 1 k0
      let r2 := randUniform g (-1) 1 r1.2
      ({ x := r * M.sin t + r1.1 * noise,
         y := r * M.cos t + r2.1 * noise, label := label }, r2.2)) k1
  let p1 := genSpiral 0 1 k
  let p2 := genSpiral M.pi (-1) p1.2
  (p1.1 ++ p2.1, p2.2)

/-- Dataset module `classifyCircleData(numSamples, noise)`: half the
samples at radius `0.5 · 5`, half at `0.7 · 5` (both loop bounds are
`numSamples / 2` with real division), labelled by whether the noised
point lies within `0.6 · 5` of the origin. -/
def classifyCircleData (M : MathOps) (g : ℕ → ℚ) (numSamples : ℕ)
    (noise : ℚ) (k : ℕ) : List Example2D × ℕ :=
  let radius : ℚ := 5
  let getCircleLabel := fun (p : ℚ × ℚ) =>
    if dist M p (0, 0) < radius * (3/5) then (1 : ℚ) else -1
  let genHalf := fun (r : ℚ) (k1 : ℕ) =>
    genFor (jsCountLt ((numSamples : ℚ) / 2)) (fun _ k0 =>
      let rangle := randUniform g 0 (2 * M.pi) k0
      let x := r * M.sin rangle.1
      let y := r * M.cos rangle.1
      let rnx := randUniform g (-radius) radius rangle.2
      let rny := randUniform g (-radius) radius rnx.2
      ({ x := x, y := y,
         label := getCircleLabel (x + rnx.1 * noise, y + rny.1 * noise) },
       rny.2)) k1
  let p1 := genHalf (radius * (1/2)) k
  let p2 := genHalf (radius * (7/10)) p1.2
  (p1.1 ++ p2.1, p2.2)

/-- Dataset module `classifyXORData(numSamples, noise)`: uniform points
in `[-5,5]²`, each coordinate pushed `0.3` away from its axis
(`x > 0 ? +0.3 : -0.3`), labelled `+1` when `x·y ≥ 0` on the noised
point and `-1` otherwise. -/
def classifyXORData (g : ℕ → ℚ) (numSamples : ℕ) (noise : ℚ) (k : ℕ) :
    List Example2D × ℕ :=
  genFor (jsCountLt (numSamples : ℚ)) (fun _ k0 =>
    let rx := randUniform g (-5) 5 k0
    let x := rx.1 + (if 0 < rx.1 then 3/10 else -(3/10))
    let ry := randUniform g (-5) 5 rx.2
    let y := ry.1 + (if 0 < ry.1 then 3/10 else -(3/10))
    let rnx := randUniform g (-5) 5 ry.2
    let rny := randUniform g (-5) 5 rnx.2
    let label : ℚ :=
      if 0 ≤ (x + rnx.1 * noise) * (y + rny.1 * noise) then 1 else -1
    ({ x := x, y := y, label := label }, rny.2)) k

/-- The hardcoded 28×28 MNIST-three bitmap of
`classifyMNISTThreeData`. -/
def three : List (List ℚ) :=
  [[0, 0, 0, 0, 0, 0, 0, 0, 0, 0, 0, 0, 0, 0, 0, 0, 0, 0, 0, 0, 0, 0, 0, 0, 0, 0, 0, 0],
   [0, 0, 0, 0, 0, 0, 0, 0, 0, 0, 0, 0, 0, 0, 0, 0, 0, 0, 0, 0, 0, 0, 0, 0, 0, 0, 0, 0],
   [0, 0, 0, 0, 0, 0, 0, 0, 0, 0, 0, 0, 0, 0, 0, 0, 0, 0, 0, 0, 0, 0, 0, 0, 0, 0, 0, 0],
   [0, 0, 0, 0, 0, 0, 0, 0, 0, 0, 0, 0, 0, 0, 0, 0, 0, 0, 0, 0, 0, 0, 0, 0, 0, 0, 0, 0],
   [0, 0, 0, 0, 0, 0, 0, 0, 0, 0, 0, 0, 0, 0, 0, 0, 0, 0, 0, 0, 0, 0, 0, 0, 0, 0, 0, 0],
   [0, 0, 0, 0, 0, 0, 0, 0, 0, 0, 0, 0, 0, 0, 0, 0, 0, 0, 0, 0, 0, 0, 0, 0, 0, 0, 0, 0],
   [0, 0, 0, 0, 0, 0, 197, 234, 234, 234, 234, 234, 234, 196, 197, 219, 97, 97, 97, 13, 0, 0, 0, 0, 0, 0, 0, 0],
   [0, 0, 0, 0, 0, 0, 213, 253, 253, 253, 253, 253, 253, 253, 253, 253, 253, 253, 253, 218, 179, 64, 0, 0, 0, 0, 0, 0],
   [0, 0, 0, 0, 0, 0, 93, 210, 253, 253, 253, 253, 253, 253, 253, 253, 253, 253, 253, 253, 253, 243, 177, 0, 0, 0, 0, 0],
   [0, 0, 0, 0, 0, 0, 0, 18, 82, 82, 82, 82, 82, 82, 82, 171, 219, 219, 233, 253, 253, 253, 235, 16, 0, 0, 0, 0],
   [0, 0, 0, 0, 0, 0, 0, 0, 0, 0, 0, 0, 0, 0, 0, 0, 0, 0, 111, 253, 253, 253, 253, 124, 0, 0, 0, 0],
   [0, 0, 0, 0, 0, 0, 0, 0, 0, 0, 0, 0, 0, 0, 0, 0, 4, 130, 247, 253, 253, 253, 242, 123, 0, 0, 0, 0],
   [0, 0, 0, 0, 0, 0, 0, 0, 0, 0, 0, 0, 0, 30, 111, 200, 248, 253, 253, 253, 253, 253, 173, 0, 0, 0, 0, 0],
   [0, 0, 0, 0, 0, 0, 0, 0, 0, 0, 0, 0, 203, 234, 253, 253, 253, 253, 253, 253, 253, 167, 10, 0, 0, 0, 0, 0],
   [0, 0, 0, 0, 0, 0, 0, 0, 0, 0, 0, 0, 227, 253, 253, 253, 253, 253, 253, 193, 77, 14, 0, 0, 0, 0, 0, 0],
   [0, 0, 0, 0, 0, 0, 0, 0, 0, 0, 0, 0, 201, 253, 253, 253, 253, 253, 177, 9, 0, 0, 0, 0, 0, 0, 0, 0],
   [0, 0, 0, 0, 0, 0, 0, 0, 0, 0, 0, 0, 32, 89, 189, 229, 253, 253, 161, 19, 0, 0, 0, 0, 0, 0, 0, 0],
   [0, 0, 0, 0, 71, 144, 142, 33, 0, 0, 0, 0, 0, 0, 0, 28, 253, 253, 253, 93, 0, 0, 0, 0, 0, 0, 0, 0],
   [0, 0, 0, 0, 254, 253, 177, 0, 0, 0, 0, 0, 0, 0, 0, 28, 253, 253, 253, 34, 0, 0, 0, 0, 0, 0, 0, 0],
   [0, 0, 0, 0, 198, 253, 208, 81, 0, 0, 0, 0, 0, 0, 0, 17, 209, 253, 253, 90, 0, 0, 0, 0, 0, 0, 0, 0],
   [0, 0, 0, 0, 192, 253, 253, 246, 201, 83, 83, 47, 75, 83, 83, 172, 239, 253, 253, 52, 0, 0, 0, 0, 0, 0, 0, 0],
   [0, 0, 0, 0, 25, 204, 253, 253, 253, 253, 253, 230, 248, 253, 253, 253, 253, 253, 253, 34, 0, 0, 0, 0, 0, 0, 0, 0],
   [0, 0, 0, 0, 0, 29, 75, 179, 212, 236, 253, 253, 253, 253, 253, 253, 253, 253, 236, 28, 0, 0, 0, 0, 0, 0, 0, 0],
   [0, 0, 0, 0, 0, 0, 0, 0, 0, 57, 96, 229, 232, 232, 232, 232, 232, 165, 57, 0, 0, 0, 0, 0, 0, 0, 0, 0],
   [0, 0, 0, 0, 0, 0, 0, 0, 0, 0, 0, 0, 0, 0, 0, 0, 0, 0, 0, 0, 0, 0, 0, 0, 0, 0, 0, 0],
   [0, 0, 0, 0, 0, 0, 0, 0, 0, 0, 0, 0, 0, 0, 0, 0, 0, 0, 0, 0, 0, 0, 0, 0, 0, 0, 0, 0],
   [0, 0, 0, 0, 0, 0, 0, 0, 0, 0, 0, 0, 0, 0, 0, 0, 0, 0, 0, 0, 0, 0, 0, 0, 0, 0, 0, 0],
   [0, 0, 0, 0, 0, 0, 0, 0, 0, 0, 0, 0, 0, 0, 0, 0, 0, 0, 0, 0, 0, 0, 0, 0, 0, 0, 0, 0]]
/-- JavaScript test `v > 0` where `v` may be `undefined` (out-of-range
bitmap read): comparison with `undefined` is false. -/
def jsGTzero : JsNum → Bool
  | some v => decide (0 < v)
  | none => false

/-- Bitmap read `three[y][x]` of `classifyMNISTThreeData`.  A negative or
too-large row index cannot arise from an actual `Math.random()` source
(the sampled indices lie in `0..27`); for such model-only streams the
row read is absorbed into `undefined` here, where JavaScript would throw
on the subsequent column access. -/
def mnistThreeVal (yIdx xIdx : ℤ) : JsNum :=
  if yIdx < 0 ∨ xIdx < 0 then none
  else (three.getD yIdx.toNat []).get? xIdx.toNat

/-- Dataset module `classifyMNISTThreeData(numSamples, noise)`: sample a
lattice cell of the bitmap, label by whether the bitmap value is
positive (the noise terms are hardcoded to 0 in the source), then
rescale the cell coordinates to `[-6, 6]`. -/
def classifyMNISTThreeData (g : ℕ → ℚ) (numSamples : ℕ) (noise : ℚ)
    (k : ℕ) : List Example2D × ℕ :=
  genFor (jsCountLt (numSamples : ℚ)) (fun _ k0 =>
    let rx := randUniform g 0 28 k0
    let x0 : ℤ := ⌊rx.1⌋
    let ry := randUniform g 0 28 rx.2
    let y0 : ℤ := ⌊ry.1⌋
    let label : ℚ := if jsGTzero (mnistThreeVal y0 x0) then 1 else -1
    ({ x := (x0 : ℚ) * 12 / 28 - 6, y := (y0 : ℚ) * 12 / 28 - 6,
       label := label }, ry.2)) k

/-- Dataset module `classifyConcentricCircles(numSamples, noise)`: `n =
numSamples / 2` (real division) points on the radius-2 circle (label
`+1`) followed by `n` points on the radius-4 circle (label `-1`), with
additive jitter. -/
def classifyConcentricCircles (M : MathOps) (g : ℕ → ℚ) (numSamples : ℕ)
    (noise : ℚ) (k : ℕ) : List Example2D × ℕ :=
  let n : ℚ := (numSamples : ℚ) / 2
  let genCircle := fun (radius label : ℚ) (k1 : ℕ) =>
    genFor (jsCountLt n) (fun _ k0 =>
      let rangle := randUniform g 0 (2 * M.pi) k0
      let r1 := randUniform g (-1) 1 rangle.2
      let r2 := randUniform g (-1) 1 r1.2
      ({ x := radius * M.cos rangle.1 + r1.1 * noise,
         y := radius * M.sin rangle.1 + r2.1 * noise,
         label := label }, r2.2)) k1
  let p1 := genCircle 2 1 k
  let p2 := genCircle 4 (-1) p1.2
  (p1.1 ++ p2.1, p2.2)

/-- Dataset module `regressSineWave(numSamples, noise)`:
`y = 1 · sin(0.5 · x) + jitter`, label `y`. -/
def regressSineWave (M : MathOps) (g : ℕ → ℚ) (numSamples : ℕ)
    (noise : ℚ) (k : ℕ) : List Example2D × ℕ :=
  genFor (jsCountLt (numSamples : ℚ)) (fun _ k0 =>
    let rx := randUniform g (-10) 10 k0
    let r2 := randUniform g (-1) 1 rx.2
    let y := 1 * M.sin (1/2 * rx.1) + r2.1 * noise
    ({ x := rx.1, y := y, label := y }, r2.2)) k

/-- Dataset module `classifyBiclusters(numSamples, noise)`: `n =
numSamples / 2` (real division) points near the band `y = x` (label
`+1`) followed by `n` points near `y = -x` (label `-1`). -/
def classifyBiclusters (g : ℕ → ℚ) (numSamples : ℕ) (noise : ℚ)
    (k : ℕ) : List Example2D × ℕ :=
  let n : ℚ := (numSamples : ℚ) / 2
  let p1 := genFor (jsCountLt n) (fun _ k0 =>
    let rx := randUniform g (-5) 5 k0
    let r2 := randUniform g (-1) 1 rx.2
    ({ x := rx.1, y := rx.1 + r2.1 * noise, label := 1 }, r2.2)) k
  let p2 := genFor (jsCountLt n) (fun _ k0 =>
    let rx := randUniform g (-5) 5 k0
    let r2 := randUniform g (-1) 1 rx.2
    ({ x := rx.1, y := -rx.1 + r2.1 * noise, label := -1 }, r2.2)) p1.2
  (p1.1 ++ p2.1, p2.2)

/-- Dataset module `classifyMoons(numSamples, noise)`: two half-circle
arcs of `n = numSamples / 2` (real division) points each, the second
reflected and shifted down by `0.5`, labels `+1` and `-1`. -/
def classifyMoons (M : MathOps) (g : ℕ → ℚ) (numSamples : ℕ)
    (noise : ℚ) (k : ℕ) : List Example2D × ℕ :=
  let n : ℚ := (numSamples : ℚ) / 2
  let p1 := genFor (jsCountLt n) (fun i k0 =>
    let angle := M.pi * (i : ℚ) / n
    let r1 := randUniform g (-1) 1 k0
    let r2 := randUniform g (-1) 1 r1.2
    ({ x := M.cos angle + r1.1 * noise,
       y := M.sin angle + r2.1 * noise, label := 1 }, r2.2)) k
  let p2 := genFor (jsCountLt n) (fun i k0 =>
    let angle := M.pi * (i : ℚ) / n
    let r1 := randUniform g (-1) 1 k0
    let r2 := randUniform g (-1) 1 r1.2
    ({ x := 1 - M.cos angle + r1.1 * noise,
       y := 1 - M.sin angle - 1/2 + r2.1 * noise, label := -1 }, r2.2)) p1.2
  (p1.1 ++ p2.1, p2.2)

/-- Dataset module `regressFriedman1(numSamples, noise)`: the Friedman 1
synthetic regression formula over five uniform `[0,1]` inputs, rendered
at `(x1, y)` with label `y`. -/
def regressFriedman1 (M : MathOps) (g : ℕ → ℚ) (numSamples : ℕ)
    (noise : ℚ) (k : ℕ) : List Example2D × ℕ :=
  genFor (jsCountLt (numSamples : ℚ)) (fun _ k0 =>
    let r1 := randUniform g 0 1 k0
    let r2 := randUniform g 0 1 r1.2
    let r3 := randUniform g 0 1 r2.2
    let r4 := randUniform g 0 1 r3.2
    let r5 := randUniform g 0 1 r4.2
    let r6 := randUniform g (-1) 1 r5.2
    let y := 10 * M.sin (M.pi * r1.1 * r2.1) + 20 * (r3.1 - 1/2) ^ 2
      + 10 * r4.1 + 5 * r5.1 + r6.1 * noise
    ({ x := r1.1, y := y, label := y }, r6.2)) k

/-- Dataset module `regressFriedman2(numSamples, noise)`: the Friedman 2
formula (a division whose JavaScript value at a zero denominator is
Infinity is modelled by the junk value of `ℚ` division; no theorem
depends on it). -/
def regressFriedman2 (M : MathOps) (g : ℕ → ℚ) (numSamples : ℕ)
    (noise : ℚ) (k : ℕ) : List Example2D × ℕ :=
  genFor (jsCountLt (numSamples : ℚ)) (fun _ k0 =>
    let r1 := randUniform g 0 100 k0
    let r2 := randUniform g (40 * M.pi) (560 * M.pi) r1.2
    let r3 := randUniform g 0 1 r2.2
    let r4 := randUniform g 1 11 r3.2
    let r5 := randUniform g (-1) 1 r4.2
    let y := M.sqrt (r1.1 * r1.1 + (r2.1 * r3.1 - 1 / (r2.1 * r4.1)) ^ 2)
      + r5.1 * noise
    ({ x := r1.1, y := y, label := y }, r5.2)) k

/-- Dataset module `regressFriedman3(numSamples, noise)`: the Friedman 3
formula (same caveat on zero denominators as Friedman 2). -/
def regressFriedman3 (M : MathOps) (g : ℕ → ℚ) (numSamples : ℕ)
    (noise : ℚ) (k : ℕ) : List Example2D × ℕ :=
  genFor (jsCountLt (numSamples : ℚ)) (fun _ k0 =>
    let r1 := randUniform g 0 100 k0
    let r2 := randUniform g (40 * M.pi) (560 * M.pi) r1.2
    let r3 := randUniform g 0 1 r2.2
    let r4 := randUniform g 1 11 r3.2
    let r5 := randUniform g (-1) 1 r4.2
    let y := M.atan ((r2.1 * r3.1 - 1 / (r2.1 * r4.1)) / r1.1) + r5.1 * noise
    ({ x := r1.1, y := y, label := y }, r5.2)) k

/-- The registry of dataset generators: every generator exported by the
dataset module, each as a function of `(numSamples, noise)` plus the
random-counter start, with the float operations `M`, the random stream
`g` and the rejection-loop fuel fixed. -/
def registry (M : MathOps) (g : ℕ → ℚ) (fuel : ℕ) :
    List (ℕ → ℚ → ℕ → List Example2D × ℕ) :=
  [fun n noise k => classifyHashData g n noise k,
   fun n noise k => classifyTwoGaussData M g fuel n noise k,
   fun n noise k => regressArgMax g n noise k,
   fun n noise k => regressMaximum g n noise k,
   fun n noise k => regressPlane g n noise k,
   fun n noise k => regressGaussian M g n noise k,
   fun n noise k => classifySpiralData M g n noise k,
   fun n noise k => classifyCircleData M g n noise k,
   fun n noise k => classifyXORData g n noise k,
   fun n noise k => classifyMNISTThreeData g n noise k,
   fun n noise k => classifyConcentricCircles M g n noise k,
   fun n noise k => regressSineWave M g n noise k,
   fun n noise k => classifyBiclusters g n noise k,
   fun n noise k => classifyMoons M g n noise k,
   fun n noise k => regressFriedman1 M g n noise k,
   fun n noise k => regressFriedman2 M g n noise k,
   fun n noise k => regressFriedman3 M g n noise k]

/-- Trivial float model for concrete witnesses (its values never matter
for length or control-flow facts). -/
def mathOps0 : MathOps :=
  { sin := fun _ => 0, cos := fun _ => 0, sqrt := fun _ => 0,
    log := fun _ => 0, atan := fun _ => 0, pi := 0 }

/-- Constant-zero random stream for concrete witnesses. -/
def g0 : ℕ → ℚ := fun _ => 0

/-- Random stream constantly `0.5`, the stream on which `Math.random()`
twice returning `0.5` makes the polar draws `v1 = v2 = 0`. -/
def gHalf : ℕ → ℚ := fun _ => 1/2

/-- A concrete not-yet-materialized instance state (default settings,
`numSamples = 10`, domains `[-6,6]`). -/
def preState0 : HeatMapState := constructedState ⟨false, false⟩ 10 (-6, 6) (-6, 6)

/-- A concrete instance state whose effective settings have
`noSvg = true`. -/
def noSvgState0 : HeatMapState := constructedState ⟨false, true⟩ 10 (-6, 6) (-6, 6)

/-- A 10×10 all-zero data matrix. -/
def zeros10 : List (List ℚ) := List.replicate 10 (List.replicate 10 0)

/-- The 4×4 matrix holding the row-major values 1..16. -/
def ex16 : List (List ℚ) :=
  [[1, 2, 3, 4], [5, 6, 7, 8], [9, 10, 11, 12], [13, 14, 15, 16]]

lemma genForFrom_fst_length (body : ℕ → ℕ → Example2D × ℕ) (c : ℕ) :
    ∀ i k, ((genForFrom body i c k).1).length = c := by
  induction c with
  | zero => intro i k; rfl
  | succ c ih => intro i k; simpa [genForFrom] using ih (i + 1) ((body i k).2)

lemma genFor_fst_length (count : ℕ) (body : ℕ → ℕ → Example2D × ℕ)
    (k : ℕ) : ((genFor count body k).1).length = count :=
  genForFrom_fst_length body count 0 k

lemma genForFrom_mem (body : ℕ → ℕ → Example2D × ℕ) (c : ℕ) :
    ∀ i k p, p ∈ (genForFrom body i c k).1 → ∃ j k', p = (body j k').1 := by
  induction c with
  | zero => intro i k p h; simp [genForFrom] at h
  | succ c ih =>
    intro i k p h
    simp only [genForFrom, List.mem_cons] at h
    rcases h with h | h
    · exact ⟨i, k, h⟩
    · exact ih (i + 1) ((body i k).2) p h

lemma genFor_mem (count : ℕ) (body : ℕ → ℕ → Example2D × ℕ) (k : ℕ)
    (p : Example2D) (h : p ∈ (genFor count body k).1) :
    ∃ j k', p = (body j k').1 :=
  genForFrom_mem body count 0 k p h

lemma jsCountLt_natCast (n : ℕ) : jsCountLt (n : ℚ) = n := by
  simp [jsCountLt]

lemma jsCountLt_half (n : ℕ) : jsCountLt ((n : ℚ) / 2) = (n + 1) / 2 := by
  unfold jsCountLt
  rcases Nat.even_or_odd n with ⟨m, hm⟩ | ⟨m, hm⟩
  · subst hm
    have h1 : ((m + m : ℕ) : ℚ) / 2 = (m : ℚ) := by push_cast; ring
    rw [h1]
    simp
    omega
  · subst hm
    have h1 : ((2 * m + 1 : ℕ) : ℚ) / 2 = (m : ℚ) + 1/2 := by push_cast; ring
    rw [h1]
    have h2 : ⌈(m : ℚ) + 1/2⌉ = (m : ℤ) + 1 := by
      rw [Int.ceil_eq_iff]
      constructor
      · push_cast; norm_num
      · push_cast; norm_num
    rw [h2]
    omega

lemma classifyHashData_length (g : ℕ → ℚ) (n : ℕ) (noise : ℚ) (k : ℕ) :
    ((classifyHashData g n noise k).1).length = n := by
  simp [classifyHashData, genFor_fst_length, jsCountLt_natCast]

lemma classifyTwoGaussData_length (M : MathOps) (g : ℕ → ℚ)
    (fuel n : ℕ) (noise : ℚ) (k : ℕ) :
    ((classifyTwoGaussData M g fuel n noise k).1).length = 2 * ((n + 1) / 2) := by
  simp [classifyTwoGaussData, genFor_fst_length, jsCountLt_half]
  omega

lemma regressArgMax_length (g : ℕ → ℚ) (n : ℕ) (noise : ℚ) (k : ℕ) :
    ((regressArgMax g n noise k).1).length = n := by
  simp [regressArgMax, genFor_fst_length, jsCountLt_natCast]

lemma regressMaximum_length (g : ℕ → ℚ) (n : ℕ) (noise : ℚ) (k : ℕ) :
    ((regressMaximum g n noise k).1).length = n := by
  simp [regressMaximum, genFor_fst_length, jsCountLt_natCast]

lemma regressPlane_length (g : ℕ → ℚ) (n : ℕ) (noise : ℚ) (k : ℕ) :
    ((regressPlane g n noise k).1).length = n := by
  simp [regressPlane, genFor_fst_length, jsCountLt_natCast]

lemma regressGaussian_length (M : MathOps) (g : ℕ → ℚ) (n : ℕ)
    (noise : ℚ) (k : ℕ) :
    ((regressGaussian M g n noise k).1).length = n := by
  simp [regressGaussian, genFor_fst_length, jsCountLt_natCast]

lemma classifySpiralData_length (M : MathOps) (g : ℕ → ℚ) (n : ℕ)
    (noise : ℚ) (k : ℕ) :
    ((classifySpiralData M g n noise k).1).length = 2 * ((n + 1) / 2) := by
  simp [classifySpiralData, genFor_fst_length, jsCountLt_half]
  omega

lemma classifyCircleData_length (M : MathOps) (g : ℕ → ℚ) (n : ℕ)
    (noise : ℚ) (k : ℕ) :
    ((classifyCircleData M g n noise k).1).length = 2 * ((n + 1) / 2) := by
  simp [classifyCircleData, genFor_fst_length, jsCountLt_half]
  omega

lemma classifyXORData_length (g : ℕ → ℚ) (n : ℕ) (noise : ℚ) (k : ℕ) :
    ((classifyXORData g n noise k).1).length = n := by
  simp [classifyXORData, genFor_fst_length, jsCountLt_natCast]

lemma classifyMNISTThreeData_length (g : ℕ → ℚ) (n : ℕ) (noise : ℚ)
    (k : ℕ) : ((classifyMNISTThreeData g n noise k).1).length = n := by
  simp [classifyMNISTThreeData, genFor_fst_length, jsCountLt_natCast]

lemma classifyConcentricCircles_length (M : MathOps) (g : ℕ → ℚ) (n : ℕ)
    (noise : ℚ) (k : ℕ) :
    ((classifyConcentricCircles M g n noise k).1).length = 2 * ((n + 1) / 2) := by
  simp [classifyConcentricCircles, genFor_fst_length, jsCountLt_half]
  omega

lemma regressSineWave_length (M : MathOps) (g : ℕ → ℚ) (n : ℕ)
    (noise : ℚ) (k : ℕ) :
    ((regressSineWave M g n noise k).1).length = n := by
  simp [regressSineWave, genFor_fst_length, jsCountLt_natCast]

lemma classifyBiclusters_length (g : ℕ → ℚ) (n : ℕ) (noise : ℚ) (k : ℕ) :
    ((classifyBiclusters g n noise k).1).length = 2 * ((n + 1) / 2) := by
  simp [classifyBiclusters, genFor_fst_length, jsCountLt_half]
  omega

lemma classifyMoons_length (M : MathOps) (g : ℕ → ℚ) (n : ℕ)
    (noise : ℚ) (k : ℕ) :
    ((classifyMoons M g n noise k).1).length = 2 * ((n + 1) / 2) := by
  simp [classifyMoons, genFor_fst_length, jsCountLt_half]
  omega

lemma regressFriedman1_length (M : MathOps) (g : ℕ → ℚ) (n : ℕ)
    (noise : ℚ) (k : ℕ) :
    ((regressFriedman1 M g n noise k).1).length = n := by
  simp [regressFriedman1, genFor_fst_length, jsCountLt_natCast]

lemma regressFriedman2_length (M : MathOps) (g : ℕ → ℚ) (n : ℕ)
    (noise : ℚ) (k : ℕ) :
    ((regressFriedman2 M g n noise k).1).length = n := by
  simp [regressFriedman2, genFor_fst_length, jsCountLt_natCast]

lemma regressFriedman3_length (M : MathOps) (g : ℕ → ℚ) (n : ℕ)
    (noise : ℚ) (k : ℕ) :
    ((regressFriedman3 M g n noise k).1).length = n := by
  simp [regressFriedman3, genFor_fst_length, jsCountLt_natCast]

/-- C1 (amended): for every dataset generator in the registry, every
numSamples and every noise value, the length of the returned example
sequence is either `numSamples` or `2 * ceil(numSamples / 2)`: the
generators that split samples into two groups (two Gaussian clusters,
spiral, circle, concentric circles, moons, biclusters) produce exactly
`ceil(numSamples / 2)` examples per group, because their JavaScript loop
bound `numSamples / 2` uses real division, so an odd count rounds *up*
(total `numSamples + 1`), and all other generators produce exactly
`numSamples` examples. -/
theorem registry_length (M : MathOps) (g : ℕ → ℚ) (fuel : ℕ)
    (gen : ℕ → ℚ → ℕ → List Example2D × ℕ) (hgen : gen ∈ registry M g fuel)
    (n : ℕ) (noise : ℚ) (k : ℕ) :
    ((gen n noise k).1).length = n ∨
    ((gen n noise k).1).length = 2 * ((n + 1) / 2) := by
  simp only [registry, List.mem_cons, List.not_mem_nil, or_false] at hgen
  rcases hgen with rfl | rfl | rfl | rfl | rfl | rfl | rfl | rfl | rfl |
    rfl | rfl | rfl | rfl | rfl | rfl | rfl | rfl
  · exact .inl (classifyHashData_length g n noise k)
  · exact .inr (classifyTwoGaussData_length M g fuel n noise k)
  · exact .inl (regressArgMax_length g n noise k)
  · exact .inl (regressMaximum_length g n noise k)
  · exact .inl (regressPlane_length g n noise k)
  · exact .inl (regressGaussian_length M g n noise k)
  · exact .inr (classifySpiralData_length M g n noise k)
  · exact .inr (classifyCircleData_length M g n noise k)
  · exact .inl (classifyXORData_length g n noise k)
  · exact .inl (classifyMNISTThreeData_length g n noise k)
  · exact .inr (classifyConcentricCircles_length M g n noise k)
  · exact .inl (regressSineWave_length M g n noise k)
  · exact .inr (classifyBiclusters_length g n noise k)
  · exact .inr (classifyMoons_length M g n noise k)
  · exact .inl (regressFriedman1_length M g n noise k)
  · exact .inl (regressFriedman2_length M g n noise k)
  · exact .inl (regressFriedman3_length M g n noise k)

/-- C1 counterexample: the biclusters generator is in the registry, yet
on the odd sample count 1 it returns 2 examples — the loop bound
`numSamples / 2 = 0.5` admits the iteration `i = 0` in each of the two
groups — while the claim allows only `numSamples = 1` or
`floor(1/2) * 2 = 0` examples. -/
theorem registry_length_counterexample :
    ((fun n noise k => classifyBiclusters g0 n noise k) ∈ registry mathOps0 g0 0) ∧
    ((classifyBiclusters g0 1 0 0).1).length = 2 ∧
    (2 : ℕ) ≠ 1 ∧ (2 : ℕ) ≠ 1 / 2 * 2 := by
  refine ⟨by simp [registry],
    by simpa using classifyBiclusters_length g0 1 0 0, by decide, by decide⟩

/-- C1 witness: the amended length theorem applied to the hash generator
at `numSamples = 3`. -/
theorem registry_length_witness :
    ((fun n noise k => classifyHashData g0 n noise k) ∈ registry mathOps0 g0 0) ∧
    (((classifyHashData g0 3 0 0).1).length = 3 ∨
     ((classifyHashData g0 3 0 0).1).length = 2 * ((3 + 1) / 2)) :=
  ⟨by simp [registry],
   registry_length mathOps0 g0 0 (fun n noise k => classifyHashData g0 n noise k)
     (by simp [registry]) 3 0 0⟩

/-- C2: the rejection loop of the normal sampler accepts the degenerate
draw `s = 0`.  When `Math.random()` returns `0.5` twice, the polar draws
are `v1 = v2 = 0`, so `s = 0`; the loop condition of the source is
`s > 1` alone, which does not reject this pair, so it is accepted on the
first attempt (counter advanced by exactly two draws) and
`sqrt(-2·ln(s)/s)` *is* evaluated at `s = 0` — refuting the claim that
every accepted pair satisfies `0 < s`. -/
theorem normalSearch_accepts_s_zero :
    normalSearch gHalf 1 0 = some ((0, 0), 2) ∧
    (0 * 0 + 0 * 0 : ℚ) = 0 := by
  constructor
  · norm_num [normalSearch, jsRandom, gHalf]
  · norm_num

/-- C3: the color scale of heatmap.ts maps the domain minimum 0 to the
first viridis stop, but maps the domain maximum 1 to the *second* stop
0x482878, not to the last stop 0xfde725: d3 v3 builds a piecewise scale
only when `min(domain.length, range.length) > 2`, and the domain here
has two elements, so the eight remaining stops are ignored. -/
theorem colorScale_extremes_eval :
    colorScale 0 = 0x440154 ∧ colorScale 1 = 0x482878 ∧
    viridisColors.getD 9 0 = 0xfde725 := by
  norm_num [colorScale, d3ScaleLinearNum, d3Bilinear, d3Uninterpolate,
    viridisColors]

/-- C10: constructing a HeatMap with the settings argument omitted does
not succeed: the constructor reads `userSettings.showAxes` (for its
`padding` local) *before* its own `userSettings != null` guard, so the
call throws a TypeError instead of producing an instance with the
default configuration. -/
theorem heatMapConstructor_omitted_settings :
    heatMapConstructor 300 10 (-6, 6) (-6, 6) none = .error .typeError := rfl

/-- Whether a renderer call returned normally. -/
def callSucceeds : Except JsErr HeatMapState → Bool
  | .ok _ => true
  | .error _ => false

/-- Whether a renderer call failed with a deliberately raised Error —
as a raised LifecycleError would have to — rather than succeeding or
dying on an implicit TypeError. -/
def failsWithRaisedError : Except JsErr HeatMapState → Bool
  | .error .typeError => false
  | .error _ => true
  | .ok _ => false

/-- C4 counterexample: on a concrete instance state whose drawing
surface has not materialized (default settings, `numSamples = 10`),
`updateBackground` with a well-sized matrix and `updatePoints` both fail
with the implicit TypeError of dereferencing the still-undefined canvas
and svg handles — not with any deliberately raised (lifecycle) error, as
the claim demands. -/
theorem updateBackground_preMaterialization_counterexample :
    updateBackground preState0 zeros10 false = .error .typeError ∧
    failsWithRaisedError (updateBackground preState0 zeros10 false) = false ∧
    updatePoints preState0 [] = .error .typeError ∧
    failsWithRaisedError (updatePoints preState0 []) = false :=
  ⟨rfl, rfl, rfl, rfl⟩

/-- C4 (amended): a call to `updateBackground`, `updatePoints` or
`updateTestPoints` issued before the drawing surface has materialized
does fail synchronously to the caller (never a success, hence neither
silently buffered nor deferred), but the failure is the implicit
TypeError of accessing the undefined canvas/svg — or one of the
*validation* errors (size check, noSvg check) that fire before the
surface access — never a dedicated LifecycleError, which the code does
not define. -/
theorem preMaterialization_calls_fail (h : HeatMapState)
    (hc : h.canvas = none) (hs : h.svg = none)
    (data : List (List ℚ)) (d : Bool) (pts qts : List Example2D) :
    callSucceeds (updateBackground h data d) = false ∧
    (∀ e, updateBackground h data d = .error e →
      e = .typeError ∨ e = .sizeError) ∧
    callSucceeds (updatePoints h pts) = false ∧
    callSucceeds (updateTestPoints h qts) = false ∧
    (h.settings.noSvg = false →
      updatePoints h pts = .error .typeError ∧
      updateTestPoints h qts = .error .typeError) := by
  have hb : updateBackground h data d = .error .typeError ∨
      updateBackground h data d = .error .sizeError := by
    unfold updateBackground
    cases data.head? with
    | none => exact .inl rfl
    | some r0 =>
      dsimp only
      split
      · exact .inr rfl
      · rw [hc]
        exact .inl rfl
  have hp : updatePoints h pts = .error .noSvgError ∨
      updatePoints h pts = .error .typeError := by
    unfold updatePoints
    split
    · exact .inl rfl
    · rw [hs]
      exact .inr rfl
  have hq : updateTestPoints h qts = .error .noSvgError ∨
      updateTestPoints h qts = .error .typeError := by
    unfold updateTestPoints
    split
    · exact .inl rfl
    · rw [hs]
      exact .inr rfl
  refine ⟨?_, ?_, ?_, ?_, ?_⟩
  · rcases hb with hb | hb <;> rw [hb] <;> rfl
  · intro e he
    rcases hb with hb | hb <;> rw [hb] at he <;> injection he with h1
    · exact .inl h1.symm
    · exact .inr h1.symm
  · rcases hp with hp | hp <;> rw [hp] <;> rfl
  · rcases hq with hq | hq <;> rw [hq] <;> rfl
  · intro hns
    constructor
    · unfold updatePoints
      rw [hns, hs]
      rfl
    · unfold updateTestPoints
      rw [hns, hs]
      rfl

/-- C4 witness: the amended theorem applied to the concrete
not-yet-materialized state with a well-sized all-zero matrix and an
empty point list. -/
theorem preMaterialization_calls_fail_witness :
    callSucceeds (updateBackground preState0 zeros10 false) = false ∧
    updatePoints preState0 [] = .error .typeError ∧
    updateTestPoints preState0 [] = .error .typeError :=
  ⟨(preMaterialization_calls_fail preState0 rfl rfl zeros10 false [] []).1,
   (preMaterialization_calls_fail preState0 rfl rfl zeros10 false [] []).2.2.2.2 rfl⟩

/-- C8: on every instance whose effective configuration has
`noSvg = true`, `updatePoints` and `updateTestPoints` fail synchronously
with the explicit configuration error raised as the very first statement
of each method — the returned outcome carries no successor state, so no
overlay marker state is changed. -/
theorem updatePoints_noSvg_rejected (h : HeatMapState)
    (pts qts : List Example2D) (hn : h.settings.noSvg = true) :
    updatePoints h pts = .error .noSvgError ∧
    updateTestPoints h qts = .error .noSvgError := by
  unfold updatePoints updateTestPoints
  rw [hn]
  exact ⟨rfl, rfl⟩

/-- C8 witness: the rejection on a concrete `noSvg = true` state. -/
theorem updatePoints_noSvg_witness :
    updatePoints noSvgState0 [] = .error .noSvgError ∧
    updateTestPoints noSvgState0 [] = .error .noSvgError :=
  updatePoints_noSvg_rejected noSvgState0 [] [] rfl

lemma padAway (a : ℚ) :
    0 < a + (if 0 < a then (3:ℚ)/10 else -(3/10)) ∨
    a + (if 0 < a then (3:ℚ)/10 else -(3/10)) < 0 := by
  split
  · rename_i h; left; linarith
  · rename_i h; push_neg at h; right; linarith

/-- C9: with `noise = 0`, every example produced by `classifyXORData`
has `label = sign(x·y)` — `+1` when `x·y > 0`, `-1` when `x·y < 0` —
and the case `x·y = 0` cannot occur, because the `±0.3` padding pushes
both coordinates strictly away from the axes. -/
theorem classifyXORData_label_sign (g : ℕ → ℚ) (numSamples k : ℕ)
    (p : Example2D) (hp : p ∈ (classifyXORData g numSamples 0 k).1) :
    p.x * p.y ≠ 0 ∧ (0 < p.x * p.y → p.label = 1) ∧
    (p.x * p.y < 0 → p.label = -1) := by
  unfold classifyXORData at hp
  obtain ⟨j, k', hpe⟩ := genFor_mem _ _ _ p hp
  subst hpe
  dsimp only
  simp only [mul_zero, add_zero]
  generalize (randUniform g (-5) 5 (randUniform g (-5) 5 k').2).1 = b
  generalize (randUniform g (-5) 5 k').1 = a
  rcases padAway a with hx | hx <;> rcases padAway b with hy | hy
  · refine ⟨ne_of_gt (mul_pos hx hy), fun _ => if_pos (mul_pos hx hy).le, ?_⟩
    intro hcon
    exact ((lt_asymm hcon) (mul_pos hx hy)).elim
  · have hneg := mul_neg_of_pos_of_neg hx hy
    refine ⟨ne_of_lt hneg, ?_, fun _ => if_neg (not_le.mpr hneg)⟩
    intro hcon
    exact ((lt_asymm hcon) hneg).elim
  · have hneg := mul_neg_of_neg_of_pos hx hy
    refine ⟨ne_of_lt hneg, ?_, fun _ => if_neg (not_le.mpr hneg)⟩
    intro hcon
    exact ((lt_asymm hcon) hneg).elim
  · have hpos := mul_pos_of_neg_of_neg hx hy
    refine ⟨ne_of_gt hpos, fun _ => if_pos hpos.le, ?_⟩
    intro hcon
    exact ((lt_asymm hcon) hpos).elim

/-- C9 witness: on the constant-zero random stream with one sample, the
produced example is `(-5.3, -5.3)` with label `1`, and the sign theorem
applies to it. -/
theorem classifyXORData_label_sign_witness :
    (⟨-53/10, -53/10, 1⟩ : Example2D) ∈ (classifyXORData g0 1 0 0).1 ∧
    (0 : ℚ) < (⟨-53/10, -53/10, 1⟩ : Example2D).x * (⟨-53/10, -53/10, 1⟩ : Example2D).y ∧
    (⟨-53/10, -53/10, 1⟩ : Example2D).label = 1 := by
  have hlist : (classifyXORData g0 1 0 0).1 = [⟨-53/10, -53/10, 1⟩] := by
    norm_num [classifyXORData, genFor, genForFrom, randUniform, jsRandom,
      g0, jsCountLt]
  have hmem : (⟨-53/10, -53/10, 1⟩ : Example2D) ∈ (classifyXORData g0 1 0 0).1 := by
    rw [hlist]
    exact List.mem_singleton.mpr rfl
  have hpos : (0 : ℚ) < (⟨-53/10, -53/10, 1⟩ : Example2D).x *
      (⟨-53/10, -53/10, 1⟩ : Example2D).y := by norm_num
  exact ⟨hmem, hpos, (classifyXORData_label_sign g0 1 0 _ hmem).2.1 hpos⟩

lemma jsAdd_foldl (l : List ℚ) :
    ∀ a : ℚ, (l.map some).foldl jsAdd (some a) = some (a + l.sum) := by
  induction l with
  | nil => intro a; simp [jsAdd]
  | cons x xs ih =>
    intro a
    simp only [List.map_cons, List.foldl_cons]
    rw [show jsAdd (some a) (some x) = some (a + x) from rfl, ih (a + x),
      List.sum_cons]
    exact congrArg some (add_assoc a x xs.sum)

lemma jsSum_map_some (l : List ℚ) : jsSum (l.map some) = some l.sum := by
  unfold jsSum
  rw [jsAdd_foldl l 0, zero_add]

lemma flatMap_congr {α β : Type} (l : List α) (f g : α → List β)
    (h : ∀ a ∈ l, f a = g a) : l.flatMap f = l.flatMap g := by
  induction l with
  | nil => rfl
  | cons x xs ih =>
    rw [List.flatMap_cons, List.flatMap_cons, h x (List.mem_cons_self x xs),
      ih fun a ha => h a (List.mem_cons_of_mem x ha)]

lemma list_flatMap_sum {α : Type} (l : List α) (f : α → List ℚ) :
    (l.flatMap f).sum = (l.map fun a => (f a).sum).sum := by
  induction l with
  | nil => rfl
  | cons x xs ih => simp [List.flatMap_cons, List.sum_append, ih]

lemma list_range_map_sum (f : ℕ → ℚ) (n : ℕ) :
    ((List.range n).map f).sum = ∑ i ∈ Finset.range n, f i := by
  induction n with
  | zero => simp
  | succ m ih =>
    rw [List.range_succ, List.map_append, List.sum_append,
      Finset.sum_range_succ, ih]
    simp

lemma range_map_getD {α : Type} (f : ℕ → α) (m i : ℕ) (d : α) (h : i < m) :
    ((List.range m).map f).getD i d = f i := by
  rw [List.getD_eq_getElem _ _ (by simpa using h)]
  simp

lemma matRead_eq_some (matrix : List (List ℚ)) (s : ℕ)
    (hrows : matrix.length = s) (hsq : ∀ r ∈ matrix, r.length = s)
    (r c : ℕ) (hr : r < s) (hc : c < s) :
    matRead matrix r c = some (matCell matrix r c) := by
  unfold matRead matCell
  have hrl : r < matrix.length := by omega
  rw [List.getD_eq_getElem matrix [] hrl]
  have hcl : c < matrix[r].length := by
    rw [hsq matrix[r] (List.getElem_mem hrl)]; exact hc
  rw [List.getD_eq_getElem _ _ hcl, List.get?_eq_getElem?,
    List.getElem?_eq_getElem hcl]

lemma blockAvg_eq (matrix : List (List ℚ)) (s f i j : ℕ)
    (hrows : matrix.length = s) (hsq : ∀ r ∈ matrix, r.length = s)
    (hif : (i + 1) * f ≤ s) (hjf : (j + 1) * f ≤ s) :
    blockAvg matrix f i j =
      some ((∑ k ∈ Finset.range f, ∑ l ∈ Finset.range f,
        matCell matrix (i * f + k) (j * f + l)) / ((f : ℚ) * f)) := by
  rw [add_mul, one_mul] at hif hjf
  unfold blockAvg
  rw [flatMap_congr (List.range f)
    (fun k => (List.range f).map fun l =>
      matRead matrix (i * f + k) (j * f + l))
    (fun k => ((List.range f).map fun l =>
      matCell matrix (i * f + k) (j * f + l)).map some)
    (by
      intro k hk
      dsimp only
      rw [List.map_map]
      apply List.map_congr_left
      intro l hl
      simp only [List.mem_range] at hk hl
      exact matRead_eq_some matrix s hrows hsq _ _ (by omega) (by omega))]
  rw [← List.map_flatMap, jsSum_map_some, list_flatMap_sum]
  simp only [list_range_map_sum]
  rfl

/-- C5 (amended): for every *nonempty* square matrix `M` with side `s`
and every positive factor `f` evenly dividing `s`, `reduceMatrix(M, f)`
returns the `s/f × s/f` matrix of block means, and on the 4×4 matrix of
values 1..16 with `f = 2` it returns `[[3.5, 5.5], [11.5, 13.5]]`.  (On
the *empty* square matrix the source instead throws a TypeError reading
`matrix[0].length`, so the side must be positive.) -/
theorem reduceMatrix_block_mean :
    (∀ (matrix : List (List ℚ)) (s f : ℕ), 0 < s → 0 < f →
      matrix.length = s → (∀ r ∈ matrix, r.length = s) → f ∣ s →
      ∃ R, reduceMatrix matrix f = .ok R ∧ R.length = s / f ∧
        (∀ r ∈ R, r.length = s / f) ∧
        ∀ i < s / f, ∀ j < s / f,
          (R.getD i []).getD j none =
            some ((∑ k ∈ Finset.range f, ∑ l ∈ Finset.range f,
              matCell matrix (i * f + k) (j * f + l)) / ((f : ℚ) * f))) ∧
    reduceMatrix ex16 2 =
      .ok [[some (7/2), some (11/2)], [some (23/2), some (27/2)]] := by
  constructor
  · intro matrix s f hs hf hrows hsq hdvd
    cases matrix with
    | nil => rw [List.length_nil] at hrows; omega
    | cons r0 rest =>
      have hr0 : r0.length = s := hsq r0 (List.mem_cons_self r0 rest)
      simp only [reduceMatrix, List.head?_cons]
      rw [hrows, hr0, if_neg (not_ne_iff.mpr rfl),
        if_neg (not_ne_iff.mpr (Nat.mod_eq_zero_of_dvd hdvd))]
      refine ⟨_, rfl, by simp, ?_, ?_⟩
      · intro r hr
        simp only [List.mem_map] at hr
        obtain ⟨i, _, rfl⟩ := hr
        simp
      · intro i hi j hj
        rw [range_map_getD _ _ _ _ hi, range_map_getD _ _ _ _ hj]
        refine blockAvg_eq (r0 :: rest) s f i j hrows hsq ?_ ?_
        · calc (i + 1) * f ≤ s / f * f := Nat.mul_le_mul_right f (by omega)
            _ = s := Nat.div_mul_cancel hdvd
        · calc (j + 1) * f ≤ s / f * f := Nat.mul_le_mul_right f (by omega)
            _ = s := Nat.div_mul_cancel hdvd
  · have h00 : blockAvg [[1, 2, 3, 4], [5, 6, 7, 8], [9, 10, 11, 12],
        [13, 14, 15, 16]] 2 0 0 = some (7/2) := by
      simp [blockAvg, matRead, jsSum, jsAdd, jsDivC, List.range_succ]
      norm_num
    have h01 : blockAvg [[1, 2, 3, 4], [5, 6, 7, 8], [9, 10, 11, 12],
        [13, 14, 15, 16]] 2 0 1 = some (11/2) := by
      simp [blockAvg, matRead, jsSum, jsAdd, jsDivC, List.range_succ]
      norm_num
    have h10 : blockAvg [[1, 2, 3, 4], [5, 6, 7, 8], [9, 10, 11, 12],
        [13, 14, 15, 16]] 2 1 0 = some (23/2) := by
      simp [blockAvg, matRead, jsSum, jsAdd, jsDivC, List.range_succ]
      norm_num
    have h11 : blockAvg [[1, 2, 3, 4], [5, 6, 7, 8], [9, 10, 11, 12],
        [13, 14, 15, 16]] 2 1 1 = some (27/2) := by
      simp [blockAvg, matRead, jsSum, jsAdd, jsDivC, List.range_succ]
      norm_num
    simp [reduceMatrix, ex16, List.range_succ, h00, h01, h10, h11]

/-- C5 counterexample: the empty matrix is square (side 0) and the
positive factor 2 evenly divides 0, yet `reduceMatrix` produces no
result: the source throws a TypeError evaluating `matrix[0].length`
instead of returning the 0×0 matrix the claim requires. -/
theorem reduceMatrix_empty_factor_two_counterexample :
    reduceMatrix ([] : List (List ℚ)) 2 = .error .typeError := rfl

/-- C5 witness: the amended block-mean theorem applied to the 4×4 matrix
of values 1..16 with factor 2. -/
theorem reduceMatrix_block_mean_witness :
    ∃ R, reduceMatrix ex16 2 = .ok R ∧ R.length = 4 / 2 ∧
      (∀ r ∈ R, r.length = 4 / 2) ∧
      ∀ i < 4 / 2, ∀ j < 4 / 2,
        (R.getD i []).getD j none =
          some ((∑ k ∈ Finset.range 2, ∑ l ∈ Finset.range 2,
            matCell ex16 (i * 2 + k) (j * 2 + l)) / ((2 : ℚ) * 2)) :=
  reduceMatrix_block_mean.1 ex16 4 2 (by norm_num) (by norm_num) rfl
    (by
      intro r hr
      simp only [ex16, List.mem_cons, List.not_mem_nil, or_false] at hr
      rcases hr with rfl | rfl | rfl | rfl <;> rfl)
    ⟨2, rfl⟩

lemma blockAvg_one (matrix : List (List ℚ)) (i j : ℕ) :
    blockAvg matrix 1 i j = matRead matrix i j := by
  unfold blockAvg
  rw [show List.range 1 = [0] from rfl]
  simp only [List.flatMap_cons, List.map_cons, List.map_nil,
    List.flatMap_nil, List.append_nil, mul_one, add_zero]
  cases h : matRead matrix i j with
  | none => simp [jsSum, jsAdd, jsDivC, h]
  | some v => simp [jsSum, jsAdd, jsDivC, h]

/-- C6 (amended): for every *nonempty* square matrix `M`,
`reduceMatrix(M, 1)` succeeds and returns `M` itself — same side length,
every cell present and equal to the corresponding cell of `M`.  On the
empty square matrix the source instead throws a TypeError reading
`matrix[0].length`. -/
theorem reduceMatrix_factor_one (matrix : List (List ℚ)) (s : ℕ)
    (hs : 0 < s) (hrows : matrix.length = s)
    (hsq : ∀ r ∈ matrix, r.length = s) :
    reduceMatrix matrix 1 = .ok (matrix.map fun r => r.map some) := by
  cases matrix with
  | nil => rw [List.length_nil] at hrows; omega
  | cons r0 rest =>
    have hr0 : r0.length = s := hsq r0 (List.mem_cons_self r0 rest)
    simp only [reduceMatrix, List.head?_cons]
    rw [hrows, hr0, if_neg (not_ne_iff.mpr rfl),
      if_neg (not_ne_iff.mpr (Nat.mod_one s)), Nat.div_one]
    congr 1
    apply List.ext_getElem
    · simpa using hrows.symm
    · intro i h1 h2
      have his : i < s := by simpa using h1
      have him : i < (r0 :: rest).length := by omega
      simp only [List.getElem_map, List.getElem_range]
      apply List.ext_getElem
      · have hrl := hsq (r0 :: rest)[i] (List.getElem_mem him)
        simp [hrl]
      · intro j hj1 hj2
        have hjs : j < s := by simpa using hj1
        have hjr : j < (r0 :: rest)[i].length := by
          rw [hsq (r0 :: rest)[i] (List.getElem_mem him)]
          exact hjs
        simp only [List.getElem_map, List.getElem_range, blockAvg_one]
        rw [matRead, List.getD_eq_getElem _ _ him, List.get?_eq_getElem?,
          List.getElem?_eq_getElem hjr]

/-- C6 counterexample: on the empty matrix — square of side 0 — the
source throws a TypeError reading `matrix[0].length`, so
`reduceMatrix(M, 1)` does not equal `M` there. -/
theorem reduceMatrix_empty_factor_one_counterexample :
    reduceMatrix ([] : List (List ℚ)) 1 = .error .typeError := rfl

/-- C6 witness: reduction at factor 1 of a concrete 2×2 matrix. -/
theorem reduceMatrix_factor_one_witness :
    reduceMatrix [[1, 2], [3, 4]] 1 =
      .ok (([[1, 2], [3, 4]] : List (List ℚ)).map fun r => r.map some) :=
  reduceMatrix_factor_one [[1, 2], [3, 4]] 2 (by norm_num) rfl
    (by
      intro r hr
      simp only [List.mem_cons, List.not_mem_nil, or_false] at hr
      rcases hr with rfl | rfl <;> rfl)

/-- C7 (amended): `reduceMatrix` fails with one of its two dimension
errors whenever the row count differs from the length of the *first*
row, or the row count is not evenly divisible by the factor.  Matrices
that are ragged only beyond the first row pass both checks and produce
a result, and the empty matrix fails with a TypeError instead, so
neither is covered by "non-square implies DimensionError". -/
theorem reduceMatrix_dimension_errors (r0 : List ℚ) (rest : List (List ℚ))
    (f : ℕ)
    (h : (r0 :: rest).length ≠ r0.length ∨ (r0 :: rest).length % f ≠ 0) :
    reduceMatrix (r0 :: rest) f = .error .notSquareError ∨
    reduceMatrix (r0 :: rest) f = .error .notDivisibleError := by
  simp only [reduceMatrix, List.head?_cons]
  by_cases h1 : (r0 :: rest).length ≠ r0.length
  · rw [if_pos h1]
    exact .inl rfl
  · rw [if_neg h1]
    rcases h with h | h
    · exact absurd h h1
    · rw [if_pos h]
      exact .inr rfl

/-- C7 counterexample: `[[1,2],[3]]` is non-square — its two rows have
different lengths — yet both validation checks pass, because the row
count 2 equals the length of the *first* row, and a result is produced:
the out-of-bounds read of the short second row surfaces as a NaN cell,
not as a DimensionError. -/
theorem reduceMatrix_ragged_counterexample :
    reduceMatrix [[1, 2], [3]] 1 = .ok [[some 1, some 2], [some 3, none]] := by
  have h00 : blockAvg [[1, 2], [3]] 1 0 0 = some 1 := by
    simp [blockAvg, matRead, jsSum, jsAdd, jsDivC, List.range_succ]
  have h01 : blockAvg [[1, 2], [3]] 1 0 1 = some 2 := by
    simp [blockAvg, matRead, jsSum, jsAdd, jsDivC, List.range_succ]
  have h10 : blockAvg [[1, 2], [3]] 1 1 0 = some 3 := by
    simp [blockAvg, matRead, jsSum, jsAdd, jsDivC, List.range_succ]
  have h11 : blockAvg [[1, 2], [3]] 1 1 1 = none := by
    simp [blockAvg, matRead, jsSum, jsAdd, jsDivC, List.range_succ]
  simp [reduceMatrix, List.range_succ, h00, h01, h10, h11]

/-- C7 witness: the amended dimension-error theorem applied to the
non-square 3×1 matrix. -/
theorem reduceMatrix_dimension_errors_witness :
    reduceMatrix [[1], [2], [3]] 1 = .error .notSquareError ∨
    reduceMatrix [[1], [2], [3]] 1 = .error .notDivisibleError :=
  reduceMatrix_dimension_errors [1] [[2], [3]] 1 (.inl (by decide))
